import Mathlib

/-!
# nikiboutique: upload middleware and database seeding

A shallow embedding of `middleware/upload.js` (the multer file filter, the two
multer configurations, the two Cloudinary publishers and the upload error
handler) and of the seeding functions of `server.js` (`createAdminUser`, the
slug expression of `createDefaultCategories`), followed by the theorems that
settle the specification's claims about them.

JavaScript strings are embedded as Lean `String`s; every string operation the
code uses (`startsWith`, `includes`, `toLowerCase`, `replace`) is defined on the
character list.
-/

namespace NikiBoutique

/-! ## JavaScript string helpers -/

/-- The method `String.prototype.startsWith(searchString)` at position 0. -/
def startsWith (s searchString : String) : Bool :=
  searchString.toList.isPrefixOf s.toList

/-- The method `Array.prototype.includes(x)` on an array of strings. -/
def includes (xs : List String) (x : String) : Bool :=
  xs.contains x

/-! ## `middleware/upload.js`: the file filter -/

/-- A JavaScript `Error` object created by `new Error(message)`. -/
structure JsError where
  message : String
  deriving DecidableEq, Repr

/-- The part of multer's file object that the middleware reads.  With
`multer.memoryStorage()` the payload is the in-memory `buffer`; when
`fileFilter` runs the body has not been read yet and the buffer is empty. -/
structure File where
  fieldname : String
  mimetype : String
  buffer : List Nat
  deriving DecidableEq, Repr

/-- The function `fileFilter(req, file, cb)` of `upload.js`, in the
continuation-passing form of the source: the value is what the one call of `cb`
returns.  The request is not read by the function and is left out. -/
def fileFilter {α : Type} (file : File) (cb : Option JsError → Bool → α) : α :=
  if startsWith file.mimetype "image/" then
    let allowed := ["image/jpeg", "image/jpg", "image/png", "image/webp"]
    if includes allowed file.mimetype then cb none true
    else cb (some ⟨"Format d'image non supporté (JPEG, JPG, PNG, WEBP)"⟩) false
  else if startsWith file.mimetype "video/" then
    let allowed := ["video/mp4", "video/mov", "video/avi", "video/webm"]
    if includes allowed file.mimetype then cb none true
    else cb (some ⟨"Format vidéo non supporté (MP4, MOV, AVI, WEBM)"⟩) false
  else
    cb (some ⟨"Seules les images et vidéos sont autorisées !"⟩) false

/-- A callback that records the two arguments it is called with. -/
def recordCb (err : Option JsError) (accept : Bool) : Option JsError × Bool :=
  (err, accept)

/-! ## `middleware/upload.js`: the two multer configurations -/

/-- The `limits` object given to `multer`; an absent `files` means no limit. -/
structure Limits where
  fileSize : Nat
  files : Option Nat
  deriving DecidableEq, Repr

/-- One entry of the array given to `.fields([...])`. -/
structure Field where
  name : String
  maxCount : Nat
  deriving DecidableEq, Repr

/-- A configured multer middleware: its limits and the fields it reads
(`.single(name)` is `.fields` with the one entry `name`, `maxCount` 1).  The
storage is always `memoryStorage` and the filter is always `fileFilter`. -/
structure Multer where
  limits : Limits
  fields : List Field
  deriving DecidableEq, Repr

/-- The export `upload`: single file under `file`, 5 MB. -/
def upload : Multer :=
  { limits := { fileSize := 5 * 1024 * 1024, files := none },
    fields := [{ name := "file", maxCount := 1 }] }

/-- The export `uploadMultiple`: images and videos, 50 MB per file, 15 files. -/
def uploadMultiple : Multer :=
  { limits := { fileSize := 50 * 1024 * 1024, files := some 15 },
    fields := [{ name := "images", maxCount := 10 }, { name := "videos", maxCount := 5 }] }

/-- One file part of an incoming multipart request: its field name, declared
content type and byte length (the payload itself is not needed for admission). -/
structure Part where
  fieldname : String
  mimetype : String
  size : Nat
  deriving DecidableEq, Repr

/-- The file object multer hands to `fileFilter` for a part, before its body is
read. -/
def Part.header (p : Part) : File :=
  { fieldname := p.fieldname, mimetype := p.mimetype, buffer := [] }

/-- Whether `fileFilter` accepts a part: `cb` called with no error and `true`. -/
def passesFilter (p : Part) : Bool :=
  fileFilter p.header (fun err accept => err.isNone && accept)

/-- Number of file parts of a request under a field name. -/
def countField (req : List Part) (name : String) : Nat :=
  (req.filter (fun p => p.fieldname == name)).length

/-- Modelled from the spec: the limit enforcement of the multer library, which
is not part of the repository's sources.  Admission of a request is the
conjunction of the file filter and the configured limits: every part passes
`fileFilter`, every part is at most `limits.fileSize` bytes, the number of file
parts is at most `limits.files` (when set), and each configured field carries at
most its `maxCount` parts. -/
def admits (m : Multer) (req : List Part) : Bool :=
  req.all passesFilter &&
  req.all (fun p => decide (p.size ≤ m.limits.fileSize)) &&
  (match m.limits.files with
   | none => true
   | some n => decide (req.length ≤ n)) &&
  m.fields.all (fun fld => decide (countField req fld.name ≤ fld.maxCount))

/-! ## `middleware/upload.js`: the Cloudinary publishers -/

/-- One entry of the `transformation` array; an absent key is `none`. -/
structure Transformation where
  width : Option Nat
  height : Option Nat
  crop : Option String
  quality : Option String
  format : Option String
  deriving DecidableEq, Repr

/-- The options object given to `upload_stream`. -/
structure UploadOptions where
  folder : String
  resource_type : String
  transformation : List Transformation
  deriving DecidableEq, Repr

/-- One use of the remote store: `upload_stream(options, cb).end(buffer)`. -/
structure UploadCall where
  options : UploadOptions
  buffer : List Nat
  deriving DecidableEq, Repr

/-- The first argument the store gives to the callback: any JavaScript value,
an object carrying a payload of type `ε` (numbers are integers here). -/
inductive JsValue (ε : Type) where
  | null : JsValue ε
  | undefined : JsValue ε
  | bool (b : Bool) : JsValue ε
  | number (n : Int) : JsValue ε
  | string (s : String) : JsValue ε
  | object (payload : ε) : JsValue ε
  deriving DecidableEq, Repr

/-- The truthiness test of `if (err)`: `null`, `undefined`, `false`, `0` and
the empty string are falsy, every object is truthy. -/
def JsValue.truthy {ε : Type} : JsValue ε → Bool
  | .null => false
  | .undefined => false
  | .bool b => b
  | .number n => n != 0
  | .string s => s != ""
  | .object _ => true

/-- The remote store as a capability with its own state `σ`.  A use of
`upload_stream(options, cb).end(buffer)` in state `s` calls the callback once
with `(err, result)` and leaves the store in a new state.  The state lets a
store count or record its uses and answer a repeated use differently, so that
a retry, a missing call or other arguments are observable. -/
structure Cloudinary (σ ε ρ : Type) where
  upload_stream : σ → UploadOptions → List Nat → (JsValue ε × ρ) × σ

/-- The state of a JavaScript promise. -/
inductive Promise (ε ρ : Type) where
  | pending : Promise ε ρ
  | fulfilled (value : ρ) : Promise ε ρ
  | rejected (reason : ε) : Promise ε ρ
  deriving DecidableEq, Repr

/-- The `resolve` function of a promise: only a pending promise settles. -/
def Promise.resolve {ε ρ : Type} (p : Promise ε ρ) (value : ρ) : Promise ε ρ :=
  match p with
  | .pending => .fulfilled value
  | q => q

/-- The `reject` function of a promise: only a pending promise settles. -/
def Promise.reject {ε ρ : Type} (p : Promise ε ρ) (reason : ε) : Promise ε ρ :=
  match p with
  | .pending => .rejected reason
  | q => q

/-- The function `uploadImageToCloudinary(file)`: the promise it returns, once
the store has called back, and the state the store is left in. -/
def uploadImageToCloudinary {σ ε ρ : Type} (cloudinary : Cloudinary σ ε ρ)
    (s : σ) (file : File) : Promise (JsValue ε) ρ × σ :=
  let options : UploadOptions :=
    { folder := "nono-vitrine/products/images",
      resource_type := "image",
      transformation :=
        [ { width := some 800, height := some 800, crop := some "limit",
            quality := some "auto", format := none },
          { width := none, height := none, crop := none, quality := none,
            format := some "auto" } ] }
  let ((err, result), s2) := cloudinary.upload_stream s options file.buffer
  let promise : Promise (JsValue ε) ρ :=
    if err.truthy then Promise.pending.reject err
    else Promise.pending.resolve result
  (promise, s2)

/-- The function `uploadVideoToCloudinary(file)`, as `uploadImageToCloudinary`. -/
def uploadVideoToCloudinary {σ ε ρ : Type} (cloudinary : Cloudinary σ ε ρ)
    (s : σ) (file : File) : Promise (JsValue ε) ρ × σ :=
  let options : UploadOptions :=
    { folder := "nono-vitrine/products/videos",
      resource_type := "video",
      transformation :=
        [ { width := none, height := none, crop := none, quality := some "auto",
            format := none } ] }
  let ((err, result), s2) := cloudinary.upload_stream s options file.buffer
  let promise : Promise (JsValue ε) ρ :=
    if err.truthy then Promise.pending.reject err
    else Promise.pending.resolve result
  (promise, s2)

/-- A store whose state is the list of the uses made of it: each use is
recorded with the options and the buffer the store received, and answered with
`reply`. -/
def recordingStore {ε ρ : Type} (reply : JsValue ε × ρ) :
    Cloudinary (List UploadCall) ε ρ :=
  { upload_stream := fun calls options buffer =>
      (reply, calls ++ [{ options := options, buffer := buffer }]) }

/-! ## `middleware/upload.js`: the error handler -/

/-- An error object reaching the handler: whether it is an instance of
`multer.MulterError`, and its `message` property (`none` when undefined). -/
structure UploadError where
  isMulterError : Bool
  message : Option String
  deriving DecidableEq, Repr

/-- The JSON body the handler sends; a `message` of `none` is `undefined`. -/
structure Body where
  success : Bool
  message : Option String
  deriving DecidableEq, Repr

/-- The Express response object: the status code set so far and the responses
sent, each with the status code it went out with. -/
structure Res where
  statusCode : Nat
  sent : List (Nat × Body)
  deriving DecidableEq, Repr

/-- The method `res.status(code)`. -/
def Res.status (res : Res) (code : Nat) : Res :=
  { res with statusCode := code }

/-- The method `res.json(body)`: sends the body with the status code set. -/
def Res.json (res : Res) (body : Body) : Res :=
  { res with sent := res.sent ++ [(res.statusCode, body)] }

/-- The expression `message || fallback`: an undefined or empty message is falsy. -/
def orDefault (message : Option String) (fallback : String) : Option String :=
  match message with
  | some m => if m = "" then some fallback else some m
  | none => some fallback

/-- The function `handleUploadError(error, req, res, next)`; `req` and `next`
are not used by the function.  The value is the response object after the
call; the body has no `throw` and reads only `error.message`. -/
def handleUploadError (error : UploadError) (res : Res) : Res :=
  if error.isMulterError then
    (res.status 400).json { success := false, message := error.message }
  else
    (res.status 400).json
      { success := false, message := orDefault error.message "Erreur d'upload" }

/-! ## `server.js`: the admin account -/

/-- The fields `createAdminUser` gives to `new User(...)`. -/
structure User where
  firstName : String
  lastName : String
  email : String
  password : String
  phone : String
  role : String
  isActive : Bool
  deriving DecidableEq, Repr

/-- The user collection. -/
abbrev UserStore := List User

/-- The query `User.findOne({ email })`: the first user with that email. -/
def findOne (db : UserStore) (email : String) : Option User :=
  db.find? (fun u => u.email == email)

/-- Modelled from the spec: `save` of the User model, whose file
`models/User.js` is not among the sources.  The store is a set of users keyed by
email: saving a user whose email is already present throws, otherwise the user
is added. -/
def save (db : UserStore) (user : User) : Except String UserStore :=
  if (findOne db user.email).isSome then .error "E11000 duplicate key error"
  else .ok (db ++ [user])

/-- What one run of `createAdminUser` does, in order. -/
inductive Effect where
  | findOne (email : String)
  | save (user : User)
  | log (line : String)
  | error (line : String)
  deriving DecidableEq, Repr

/-- The function `createAdminUser()`: the store after the run and the effects
of the run.  The `catch` block turns a throwing `save` into an error line. -/
def createAdminUser (db : UserStore) : UserStore × List Effect :=
  let existingAdmin := findOne db "boutiueniki16@gmail.com"
  match existingAdmin with
  | none =>
    let adminUser : User :=
      { firstName := "Admin",
        lastName := "NIKI ",
        email := "boutique1niki@gmail.com",
        password := "0708808945N",
        phone := "0708808945",
        role := "admin",
        isActive := true }
    match save db adminUser with
    | .ok db2 =>
      (db2, [.findOne "boutiueniki16@gmail.com", .save adminUser,
             .log "✅ Compte admin pour NIKI  Boutique créé avec succès"])
    | .error message =>
      (db, [.findOne "boutiueniki16@gmail.com", .save adminUser,
            .error ("❌ Erreur création admin NIKI  Boutique: " ++ message)])
  | some _ =>
    (db, [.findOne "boutiueniki16@gmail.com",
          .log "✅ Compte admin NIKI  Boutique existe déjà"])

/-- Whether a run called `save`. -/
def attemptsCreation (effects : List Effect) : Bool :=
  effects.any (fun e => match e with
    | .save _ => true
    | _ => false)

/-! ## `server.js` and `models/Category.js`: the default categories -/

/-- The class `\w` of a JavaScript regular expression without the `u` flag. -/
def isWordChar (c : Char) : Bool :=
  ('a' ≤ c && c ≤ 'z') || ('A' ≤ c && c ≤ 'Z') || ('0' ≤ c && c ≤ '9') || c == '_'

/-- Lower-casing of one character, for the Basic Latin and Latin-1 letters
(`A`-`Z`, `À`-`Þ` without `×`); characters outside these blocks are left as
they are, so that the ECMAScript mapping of letters beyond Latin-1 is not
covered. -/
def toLowerChar (c : Char) : Char :=
  if ('A' ≤ c && c ≤ 'Z') || ('À' ≤ c && c ≤ 'Þ' && c != '×') then
    Char.ofNat (c.toNat + 32)
  else c

/-- The method `String.prototype.toLowerCase()`, character by character. -/
def toLowerCase (s : String) : String :=
  ⟨s.toList.map toLowerChar⟩

/-- Replaces every maximal run of characters satisfying `p` by `rep`; `inRun`
says that the previous character belonged to a run. -/
def replaceRunsAux (p : Char → Bool) (rep : List Char) : Bool → List Char → List Char
  | _, [] => []
  | inRun, c :: cs =>
    if p c then
      if inRun then replaceRunsAux p rep true cs
      else rep ++ replaceRunsAux p rep true cs
    else c :: replaceRunsAux p rep false cs

/-- The call `s.replace(/C+/g, rep)` for a character class `C` given by `p`. -/
def replaceRuns (p : Char → Bool) (rep : String) (s : String) : String :=
  ⟨replaceRunsAux p rep.toList false s.toList⟩

/-- The slug expression of `createDefaultCategories`:
`name.toLowerCase().replace(/[^\w ]+/g, '').replace(/ +/g, '-')`. -/
def slug (name : String) : String :=
  replaceRuns (fun c => c == ' ') "-"
    (replaceRuns (fun c => !(isWordChar c || c == ' ')) "" (toLowerCase name))

/-- One entry of `defaultCategories`. -/
structure CategoryData where
  name : String
  type : String
  description : String
  isActive : Bool
  order : Nat
  deriving DecidableEq, Repr

/-- The array `defaultCategories` of `createDefaultCategories`. -/
def defaultCategories : List CategoryData :=
  [ { name := "Vêtements Femmes", type := "vetement_femme",
      description := "Collection de vêtements pour femmes (robes, jupes, tops...)",
      isActive := true, order := 1 },
    { name := "Vêtements Enfants", type := "vetement_enfant",
      description := "Collection de vêtements pour enfants et bébés",
      isActive := true, order := 2 },
    { name := "Chaussures", type := "chaussure",
      description := "Chaussures pour femmes et enfants",
      isActive := true, order := 3 },
    { name := "Accessoires de Mode", type := "accessoire_mode",
      description := "Sacs, bijoux et autres accessoires",
      isActive := true, order := 4 } ]

/-- The `enum` of the `type` path of `categorySchema`. -/
def categoryTypeEnum : List String :=
  ["vetement_femme", "vetement_enfant", "chaussure", "accessoire_mode"]

/-- The characters `[a-z0-9_-]`. -/
def isSlugChar (c : Char) : Bool :=
  ('a' ≤ c && c ≤ 'z') || ('0' ≤ c && c ≤ '9') || c == '_' || c == '-'

/-! ## Concrete inputs used below -/

/-- A store that counts its uses, fails on the first one and succeeds on every
later one. -/
def flakyStore : Cloudinary Nat String String :=
  { upload_stream := fun used _ _ =>
      if used = 0 then ((.object "timeout", ""), used + 1)
      else ((.null, "https://res.example/asset"), used + 1) }

/-- A request of ten `images` parts, five `videos` parts and one part under
`file`, each of 1024 bytes and of an accepted type. -/
def sixteenParts : List Part :=
  List.replicate 10 { fieldname := "images", mimetype := "image/jpeg", size := 1024 } ++
  List.replicate 5 { fieldname := "videos", mimetype := "video/mp4", size := 1024 } ++
  [{ fieldname := "file", mimetype := "image/png", size := 1024 }]

/-! ## Lemmas on the string helpers -/

theorem includes_iff (xs : List String) (x : String) :
    includes xs x = true ↔ x ∈ xs := by
  simp [includes]

theorem not_image_of_video (t : String) (h : startsWith t "video/" = true) :
    startsWith t "image/" = false := by
  obtain ⟨l⟩ := t
  cases l with
  | nil => simp [startsWith, List.isPrefixOf] at h
  | cons c cs =>
    simp only [startsWith, String.toList] at h ⊢
    simp only [List.isPrefixOf, Bool.and_eq_true, beq_iff_eq] at h
    simp only [List.isPrefixOf, Bool.and_eq_false_imp, beq_iff_eq]
    intro hc
    rw [← h.1] at hc
    exact absurd hc (by decide)

/-! ## Claims on the file filter -/

/-- C1: for a declared content type starting with `image/`, the filter calls
`cb(null, true)` exactly when the type is one of `image/jpeg`, `image/jpg`,
`image/png`, `image/webp`, and otherwise calls `cb` with the image-format error
and accept flag `false`. -/
theorem C1_fileFilter_image (file : File)
    (h : startsWith file.mimetype "image/" = true) :
    (fileFilter file recordCb = (none, true) ↔
      file.mimetype ∈ ["image/jpeg", "image/jpg", "image/png", "image/webp"]) ∧
    (file.mimetype ∉ ["image/jpeg", "image/jpg", "image/png", "image/webp"] →
      fileFilter file recordCb =
        (some ⟨"Format d'image non supporté (JPEG, JPG, PNG, WEBP)"⟩, false)) := by
  by_cases hm : includes ["image/jpeg", "image/jpg", "image/png", "image/webp"]
      file.mimetype = true
  · have hm2 := (includes_iff _ _).1 hm
    simp [fileFilter, h, hm, hm2, recordCb]
  · have hm2 : file.mimetype ∉ ["image/jpeg", "image/jpg", "image/png", "image/webp"] :=
      fun hx => hm ((includes_iff _ _).2 hx)
    simp only [Bool.not_eq_true] at hm
    simp [fileFilter, h, hm, hm2, recordCb]

/-- The filter calls `cb` once; any callback receives the recorded arguments. -/
theorem fileFilter_cb {α : Type} (file : File) (cb : Option JsError → Bool → α) :
    fileFilter file cb =
      cb (fileFilter file recordCb).1 (fileFilter file recordCb).2 := by
  simp only [fileFilter, recordCb]
  split_ifs <;> rfl

/-- C1 at `image/gif`, which starts with `image/` and is not one of the four
accepted types. -/
theorem C1_fileFilter_image_witness :
    startsWith "image/gif" "image/" = true ∧
    ((fileFilter { fieldname := "file", mimetype := "image/gif", buffer := [] } recordCb
        = (none, true) ↔
      "image/gif" ∈ ["image/jpeg", "image/jpg", "image/png", "image/webp"]) ∧
    ("image/gif" ∉ ["image/jpeg", "image/jpg", "image/png", "image/webp"] →
      fileFilter { fieldname := "file", mimetype := "image/gif", buffer := [] } recordCb =
        (some ⟨"Format d'image non supporté (JPEG, JPG, PNG, WEBP)"⟩, false))) :=
  ⟨by decide,
   C1_fileFilter_image { fieldname := "file", mimetype := "image/gif", buffer := [] }
     (by decide)⟩

/-- C2: for a declared content type starting with `video/`, the filter calls
`cb(null, true)` exactly when the type is one of `video/mp4`, `video/mov`,
`video/avi`, `video/webm`, and otherwise calls `cb` with the video-format error
and accept flag `false`. -/
theorem C2_fileFilter_video (file : File)
    (h : startsWith file.mimetype "video/" = true) :
    (fileFilter file recordCb = (none, true) ↔
      file.mimetype ∈ ["video/mp4", "video/mov", "video/avi", "video/webm"]) ∧
    (file.mimetype ∉ ["video/mp4", "video/mov", "video/avi", "video/webm"] →
      fileFilter file recordCb =
        (some ⟨"Format vidéo non supporté (MP4, MOV, AVI, WEBM)"⟩, false)) := by
  have hi := not_image_of_video file.mimetype h
  by_cases hm : includes ["video/mp4", "video/mov", "video/avi", "video/webm"]
      file.mimetype = true
  · have hm2 := (includes_iff _ _).1 hm
    simp [fileFilter, h, hi, hm, hm2, recordCb]
  · have hm2 : file.mimetype ∉ ["video/mp4", "video/mov", "video/avi", "video/webm"] :=
      fun hx => hm ((includes_iff _ _).2 hx)
    simp only [Bool.not_eq_true] at hm
    simp [fileFilter, h, hi, hm, hm2, recordCb]

/-- C2 at `video/quicktime`: it starts with `video/`, is not one of the four
accepted types, and is rejected with the video-format message. -/
theorem C2_fileFilter_video_witness :
    startsWith "video/quicktime" "video/" = true ∧
    "video/quicktime" ∉ ["video/mp4", "video/mov", "video/avi", "video/webm"] ∧
    fileFilter { fieldname := "videos", mimetype := "video/quicktime", buffer := [] }
        recordCb =
      (some ⟨"Format vidéo non supporté (MP4, MOV, AVI, WEBM)"⟩, false) :=
  ⟨by decide, by decide,
   (C2_fileFilter_video
      { fieldname := "videos", mimetype := "video/quicktime", buffer := [] }
      (by decide)).2 (by decide)⟩

/-- C3: for a declared content type starting with neither `image/` nor
`video/`, the filter calls `cb` with the generic error and accept flag `false`. -/
theorem C3_fileFilter_other (file : File)
    (hi : startsWith file.mimetype "image/" = false)
    (hv : startsWith file.mimetype "video/" = false) :
    fileFilter file recordCb =
      (some ⟨"Seules les images et vidéos sont autorisées !"⟩, false) := by
  simp [fileFilter, hi, hv, recordCb]

/-- C3 at the empty string and at `Image/png`. -/
theorem C3_fileFilter_other_witness :
    fileFilter { fieldname := "file", mimetype := "", buffer := [] } recordCb =
      (some ⟨"Seules les images et vidéos sont autorisées !"⟩, false) ∧
    fileFilter { fieldname := "file", mimetype := "Image/png", buffer := [] } recordCb =
      (some ⟨"Seules les images et vidéos sont autorisées !"⟩, false) :=
  ⟨C3_fileFilter_other { fieldname := "file", mimetype := "", buffer := [] }
     (by decide) (by decide),
   C3_fileFilter_other { fieldname := "file", mimetype := "Image/png", buffer := [] }
     (by decide) (by decide)⟩

/-! ## Claims on the error handler -/

/-- C4 as stated fails: it is not the case that every error is answered with
its own message when it has one and with `Erreur d'upload` when it has none.  A
`MulterError` without a message is answered with no message at all. -/
theorem C4_handleUploadError_default_not_for_multer :
    ¬ (∀ (error : UploadError) (res : Res),
        handleUploadError error res =
          { statusCode := 400,
            sent := res.sent ++
              [(400, { success := false,
                       message := some (error.message.getD "Erreur d'upload") })] }) := by
  intro h
  have h1 := h { isMulterError := true, message := none } { statusCode := 200, sent := [] }
  simp [handleUploadError, Res.status, Res.json] at h1

/-- C4 amended: the handler sends exactly one response, with status 400 and
body `success: false` and a message.  For a `MulterError` the message is the
error's own message, absent when the error has none; for any other error it is
the error's own message when that is a non-empty string, and
`Erreur d'upload` when the error has no message or an empty one. -/
theorem C4_handleUploadError (error : UploadError) (res : Res) :
    ∃ message : Option String,
      handleUploadError error res =
        { statusCode := 400,
          sent := res.sent ++ [(400, { success := false, message := message })] } ∧
      (error.isMulterError = true → message = error.message) ∧
      (error.isMulterError = false → ∀ m, error.message = some m → m ≠ "" →
        message = some m) ∧
      (error.isMulterError = false → (error.message = none ∨ error.message = some "") →
        message = some "Erreur d'upload") := by
  obtain ⟨multer, msg⟩ := error
  cases multer with
  | true =>
    exact ⟨msg, by simp [handleUploadError, Res.status, Res.json], by simp, by simp, by simp⟩
  | false =>
    refine ⟨orDefault msg "Erreur d'upload",
      by simp [handleUploadError, Res.status, Res.json], by simp, ?_, ?_⟩
    · intro _ m hm hne
      simp only at hm
      subst hm
      simp [orDefault, hne]
    · intro _ hm
      simp only at hm
      rcases hm with hm | hm <;> subst hm <;> simp [orDefault]

/-- C4 amended, on a fresh response: at an error that is not a `MulterError`
with the message `Unexpected end of form`, at one without a message, and at a
`MulterError` with the message `File too large`. -/
theorem C4_handleUploadError_witness :
    handleUploadError { isMulterError := false, message := some "Unexpected end of form" }
        { statusCode := 200, sent := [] } =
      { statusCode := 400,
        sent := [(400, { success := false, message := some "Unexpected end of form" })] } ∧
    handleUploadError { isMulterError := false, message := none }
        { statusCode := 200, sent := [] } =
      { statusCode := 400,
        sent := [(400, { success := false, message := some "Erreur d'upload" })] } ∧
    handleUploadError { isMulterError := true, message := some "File too large" }
        { statusCode := 200, sent := [] } =
      { statusCode := 400,
        sent := [(400, { success := false, message := some "File too large" })] } := by
  obtain ⟨m1, h1, _, h13, _⟩ :=
    C4_handleUploadError { isMulterError := false, message := some "Unexpected end of form" }
      { statusCode := 200, sent := [] }
  obtain ⟨m2, h2, _, _, h24⟩ :=
    C4_handleUploadError { isMulterError := false, message := none }
      { statusCode := 200, sent := [] }
  obtain ⟨m3, h3, h31, _, _⟩ :=
    C4_handleUploadError { isMulterError := true, message := some "File too large" }
      { statusCode := 200, sent := [] }
  rw [h13 rfl "Unexpected end of form" rfl (by decide)] at h1
  rw [h24 rfl (Or.inl rfl)] at h2
  rw [h31 rfl] at h3
  exact ⟨h1, h2, h3⟩

/-! ## Claims on the publishers -/

/-- C5: each publisher uses the store exactly once, on the file's buffer
unchanged: the store is left in the state one use of `upload_stream` on that
buffer puts it in, and a store recording its uses has recorded one more, with
that buffer.  When the store calls back with a truthy error the promise is
rejected with that very value; when it calls back with `null` (or any falsy
first argument) the promise is fulfilled with the store's result. -/
theorem C5_publish_result {σ ε ρ : Type} (cloudinary : Cloudinary σ ε ρ)
    (s : σ) (file : File) (calls : List UploadCall) (reply : JsValue ε × ρ) :
    (∃ options : UploadOptions,
      (uploadImageToCloudinary cloudinary s file).2 =
        (cloudinary.upload_stream s options file.buffer).2 ∧
      (uploadImageToCloudinary (recordingStore reply) calls file).2 =
        calls ++ [{ options := options, buffer := file.buffer }] ∧
      (∀ e r, (cloudinary.upload_stream s options file.buffer).1 = (e, r) →
        e.truthy = true →
        (uploadImageToCloudinary cloudinary s file).1 = .rejected e) ∧
      (∀ r, (cloudinary.upload_stream s options file.buffer).1 = (.null, r) →
        (uploadImageToCloudinary cloudinary s file).1 = .fulfilled r) ∧
      (∀ e r, (cloudinary.upload_stream s options file.buffer).1 = (e, r) →
        e.truthy = false →
        (uploadImageToCloudinary cloudinary s file).1 = .fulfilled r)) ∧
    (∃ options : UploadOptions,
      (uploadVideoToCloudinary cloudinary s file).2 =
        (cloudinary.upload_stream s options file.buffer).2 ∧
      (uploadVideoToCloudinary (recordingStore reply) calls file).2 =
        calls ++ [{ options := options, buffer := file.buffer }] ∧
      (∀ e r, (cloudinary.upload_stream s options file.buffer).1 = (e, r) →
        e.truthy = true →
        (uploadVideoToCloudinary cloudinary s file).1 = .rejected e) ∧
      (∀ r, (cloudinary.upload_stream s options file.buffer).1 = (.null, r) →
        (uploadVideoToCloudinary cloudinary s file).1 = .fulfilled r) ∧
      (∀ e r, (cloudinary.upload_stream s options file.buffer).1 = (e, r) →
        e.truthy = false →
        (uploadVideoToCloudinary cloudinary s file).1 = .fulfilled r)) := by
  constructor
  · refine ⟨_, rfl, rfl, ?_, ?_, ?_⟩
    · intro e r h ht
      simp [uploadImageToCloudinary, h, ht, Promise.reject]
    · intro r h
      simp [uploadImageToCloudinary, h, JsValue.truthy, Promise.resolve]
    · intro e r h ht
      simp [uploadImageToCloudinary, h, ht, Promise.resolve]
  · refine ⟨_, rfl, rfl, ?_, ?_, ?_⟩
    · intro e r h ht
      simp [uploadVideoToCloudinary, h, ht, Promise.reject]
    · intro r h
      simp [uploadVideoToCloudinary, h, JsValue.truthy, Promise.resolve]
    · intro e r h ht
      simp [uploadVideoToCloudinary, h, ht, Promise.resolve]

/-- C5 at a store that fails once and would succeed on a retry: both publishers
use it once (its counter goes from 0 to 1) and reject with the store's error;
used again after that, the image publisher fulfils with the store's result. -/
theorem C5_publish_result_witness :
    uploadImageToCloudinary flakyStore 0
        { fieldname := "images", mimetype := "image/png", buffer := [137, 80, 78, 71] } =
      (.rejected (.object "timeout"), 1) ∧
    uploadVideoToCloudinary flakyStore 0
        { fieldname := "videos", mimetype := "video/mp4", buffer := [0, 0, 0, 24] } =
      (.rejected (.object "timeout"), 1) ∧
    uploadImageToCloudinary flakyStore 1
        { fieldname := "images", mimetype := "image/png", buffer := [137, 80, 78, 71] } =
      (.fulfilled "https://res.example/asset", 2) := by
  obtain ⟨⟨o1, hs1, _, hr1, _, _⟩, _⟩ :=
    C5_publish_result flakyStore 0
      { fieldname := "images", mimetype := "image/png", buffer := [137, 80, 78, 71] }
      [] (.null, "")
  obtain ⟨_, ⟨o2, hs2, _, hr2, _, _⟩⟩ :=
    C5_publish_result flakyStore 0
      { fieldname := "videos", mimetype := "video/mp4", buffer := [0, 0, 0, 24] }
      [] (.null, "")
  obtain ⟨⟨o3, hs3, _, _, hf3, _⟩, _⟩ :=
    C5_publish_result flakyStore 1
      { fieldname := "images", mimetype := "image/png", buffer := [137, 80, 78, 71] }
      [] (.null, "")
  refine ⟨Prod.ext (hr1 (.object "timeout") "" rfl rfl) hs1,
    Prod.ext (hr2 (.object "timeout") "" rfl rfl) hs2,
    Prod.ext (hf3 "https://res.example/asset" rfl) hs3⟩

/-- C6: the options each publisher hands to the store do not depend on the
file, and are what the store receives: for every store the outcome of a
publisher is the outcome of one use of `upload_stream` with these options and
the file's buffer, and a store recording its uses has recorded exactly them.
For images they are the folder `nono-vitrine/products/images`, the resource
kind `image` and a transformation list with a directive of width 800, height
800, crop `limit`, quality `auto` and a directive of format `auto`; for videos
they are the folder `nono-vitrine/products/videos`, the resource kind `video`
and the transformation list made of the single directive quality `auto`. -/
theorem C6_publish_options :
    ∃ image video : UploadOptions,
      image.folder = "nono-vitrine/products/images" ∧
      image.resource_type = "image" ∧
      (∃ d ∈ image.transformation, d.width = some 800 ∧ d.height = some 800 ∧
        d.crop = some "limit" ∧ d.quality = some "auto") ∧
      (∃ d ∈ image.transformation, d.format = some "auto") ∧
      video.folder = "nono-vitrine/products/videos" ∧
      video.resource_type = "video" ∧
      video.transformation =
        [{ width := none, height := none, crop := none, quality := some "auto",
           format := none }] ∧
      (∀ (σ ε ρ : Type) (cloudinary : Cloudinary σ ε ρ) (s : σ) (file : File),
        uploadImageToCloudinary cloudinary s file =
          (if (cloudinary.upload_stream s image file.buffer).1.1.truthy = true then
             .rejected (cloudinary.upload_stream s image file.buffer).1.1
           else .fulfilled (cloudinary.upload_stream s image file.buffer).1.2,
           (cloudinary.upload_stream s image file.buffer).2) ∧
        uploadVideoToCloudinary cloudinary s file =
          (if (cloudinary.upload_stream s video file.buffer).1.1.truthy = true then
             .rejected (cloudinary.upload_stream s video file.buffer).1.1
           else .fulfilled (cloudinary.upload_stream s video file.buffer).1.2,
           (cloudinary.upload_stream s video file.buffer).2)) ∧
      (∀ (ε ρ : Type) (reply : JsValue ε × ρ) (calls : List UploadCall) (file : File),
        (uploadImageToCloudinary (recordingStore reply) calls file).2 =
          calls ++ [{ options := image, buffer := file.buffer }] ∧
        (uploadVideoToCloudinary (recordingStore reply) calls file).2 =
          calls ++ [{ options := video, buffer := file.buffer }]) := by
  refine ⟨_, _, ?_, ?_, ?_, ?_, ?_, ?_, ?_,
    fun σ ε ρ cloudinary s file => ⟨?_, ?_⟩,
    fun ε ρ reply calls file => ⟨rfl, rfl⟩⟩
  · rfl
  · rfl
  · exact ⟨_, List.mem_cons_self _ _, rfl, rfl, rfl, rfl⟩
  · exact ⟨_, List.mem_cons_of_mem _ (List.mem_cons_self _ _), rfl⟩
  · rfl
  · rfl
  · rfl
  · simp only [uploadImageToCloudinary, Promise.reject, Promise.resolve]
  · simp only [uploadVideoToCloudinary, Promise.reject, Promise.resolve]

/-! ## Claims on the two multer configurations -/

/-- A request with parts under `images` and `videos` only has as many parts as
the two fields together, so that within both `maxCount`s it has at most 15:
a request within both per-field limits and over the `files` limit carries a
part under another field name. -/
theorem length_eq_of_declared_fields (req : List Part)
    (hdecl : ∀ p ∈ req, p.fieldname = "images" ∨ p.fieldname = "videos") :
    req.length = countField req "images" + countField req "videos" := by
  induction req with
  | nil => rfl
  | cons p ps ih =>
    have ih2 := ih (fun q hq => hdecl q (List.mem_cons_of_mem _ hq))
    have hp := hdecl p (List.mem_cons_self _ _)
    simp only [countField] at ih2 ⊢
    rcases hp with hp | hp
    · have h1 : (p.fieldname == "images") = true := by simp [hp]
      have h2 : (p.fieldname == "videos") = false := by rw [hp]; decide
      simp only [List.filter_cons, h1, h2, List.length_cons, if_true]
      simp only [Bool.false_eq_true, if_false]
      omega
    · have h1 : (p.fieldname == "images") = false := by rw [hp]; decide
      have h2 : (p.fieldname == "videos") = true := by simp [hp]
      simp only [List.filter_cons, h1, h2, List.length_cons, if_true]
      simp only [Bool.false_eq_true, if_false]
      omega

/-- C7: under `uploadMultiple` a request is not admitted when some part is
larger than 52,428,800 bytes, when `images` has more than 10 parts, when
`videos` has more than 5 parts, and when it has more than 15 parts; and some
request within both per-field limits, with every part accepted by the filter
and within the size limit, has more than 15 parts and is not admitted. -/
theorem C7_uploadMultiple_limits :
    uploadMultiple.limits.fileSize = 52428800 ∧
    (∀ req : List Part,
      ((∃ p ∈ req, 52428800 < p.size) → admits uploadMultiple req = false) ∧
      (10 < countField req "images" → admits uploadMultiple req = false) ∧
      (5 < countField req "videos" → admits uploadMultiple req = false) ∧
      (15 < req.length → admits uploadMultiple req = false)) ∧
    (∃ req : List Part,
      countField req "images" ≤ 10 ∧ countField req "videos" ≤ 5 ∧
      (∀ p ∈ req, p.size ≤ 52428800 ∧ passesFilter p = true) ∧
      15 < req.length ∧ admits uploadMultiple req = false) := by
  refine ⟨by decide, fun req => ⟨?_, ?_, ?_, ?_⟩, ?_⟩
  · rintro ⟨p, hp, hsize⟩
    simp only [admits, uploadMultiple, Bool.and_eq_false_iff]
    left; left; right
    rw [List.all_eq_false]
    exact ⟨p, hp, by simp; omega⟩
  · intro h
    simp only [admits, uploadMultiple, Bool.and_eq_false_iff]
    right
    simp [List.all_cons]
    omega
  · intro h
    simp only [admits, uploadMultiple, Bool.and_eq_false_iff]
    right
    simp [List.all_cons]
    omega
  · intro h
    simp only [admits, uploadMultiple, Bool.and_eq_false_iff]
    left; right
    simp
    omega
  · refine ⟨sixteenParts, by decide, by decide, ?_, by decide, by decide⟩
    intro p hp
    simp only [sixteenParts, List.mem_append, List.mem_replicate, List.mem_singleton] at hp
    rcases hp with (⟨_, hp⟩ | ⟨_, hp⟩) | hp <;> subst hp <;> exact ⟨by decide, by decide⟩

/-- C7 at a request of eleven `images` parts: not admitted. -/
theorem C7_uploadMultiple_limits_witness :
    10 < countField
      (List.replicate 11 { fieldname := "images", mimetype := "image/jpeg", size := 1048576 })
      "images" ∧
    admits uploadMultiple
      (List.replicate 11 { fieldname := "images", mimetype := "image/jpeg", size := 1048576 })
      = false :=
  ⟨by decide,
   (C7_uploadMultiple_limits.2.1
      (List.replicate 11
        { fieldname := "images", mimetype := "image/jpeg", size := 1048576 })).2.1
      (by decide)⟩

/-- C8: under `upload` a single part larger than 5,242,880 bytes is not
admitted, a 6 MiB PNG among them although the filter accepts it, and a single
part under `file` of at most 5,242,880 bytes that the filter accepts is
admitted. -/
theorem C8_upload_limit :
    upload.limits.fileSize = 5242880 ∧
    (∀ p : Part, 5242880 < p.size → admits upload [p] = false) ∧
    (passesFilter { fieldname := "file", mimetype := "image/png", size := 6 * 1024 * 1024 }
        = true ∧
      admits upload [{ fieldname := "file", mimetype := "image/png", size := 6 * 1024 * 1024 }]
        = false) ∧
    (∀ p : Part, p.fieldname = "file" → p.size ≤ 5242880 → passesFilter p = true →
      admits upload [p] = true) := by
  have hbig : ∀ p : Part, 5242880 < p.size → admits upload [p] = false := by
    intro p hp
    simp only [admits, upload, Bool.and_eq_false_iff]
    left; left; right
    simp
    omega
  refine ⟨by decide, hbig, ⟨by decide, hbig _ (by decide)⟩, ?_⟩
  intro p hf hs hpass
  simp [admits, upload, hpass, countField, hf]
  omega

/-- C8 at a 2 MiB WEBP under `file` (admitted) and at a 6 MiB JPEG (not
admitted). -/
theorem C8_upload_limit_witness :
    admits upload [{ fieldname := "file", mimetype := "image/webp", size := 2097152 }] = true ∧
    admits upload [{ fieldname := "file", mimetype := "image/jpeg", size := 6291456 }] = false :=
  ⟨C8_upload_limit.2.2.2 { fieldname := "file", mimetype := "image/webp", size := 2097152 }
     rfl (by decide) (by decide),
   C8_upload_limit.2.1 { fieldname := "file", mimetype := "image/jpeg", size := 6291456 }
     (by decide)⟩

/-! ## Claims on the seeding functions -/

/-- A run of `createAdminUser` on a store without a user of the looked-up
email `boutiueniki16@gmail.com` calls `save`, and leaves a store still without
such a user: every later run calls `save` again. -/
theorem createAdminUser_attempts_again (db : UserStore)
    (h : findOne db "boutiueniki16@gmail.com" = none) :
    attemptsCreation (createAdminUser db).2 = true ∧
    findOne (createAdminUser db).1 "boutiueniki16@gmail.com" = none := by
  simp only [createAdminUser, h]
  cases hs : save db _ with
  | error e => exact ⟨rfl, h⟩
  | ok db2 =>
    refine ⟨rfl, ?_⟩
    simp only [save] at hs
    split at hs
    · cases hs
    · cases hs
      simp only [findOne] at h ⊢
      rw [List.find?_append, h]
      rfl

/-- C9 on the code: the email looked up differs from the email of the account
created.  From the empty store the first run creates the admin account; the
second run looks up `boutiueniki16@gmail.com`, finds nothing although the admin
account is in the store, and calls `save` again. -/
theorem C9_createAdminUser_second_run :
    "boutiueniki16@gmail.com" ≠ "boutique1niki@gmail.com" ∧
    (createAdminUser []).1.map (fun u => u.email) = ["boutique1niki@gmail.com"] ∧
    attemptsCreation (createAdminUser []).2 = true ∧
    findOne (createAdminUser []).1 "boutiueniki16@gmail.com" = none ∧
    (findOne (createAdminUser []).1 "boutique1niki@gmail.com").isSome = true ∧
    attemptsCreation (createAdminUser (createAdminUser []).1).2 = true := by
  refine ⟨by decide, by decide, by decide, by decide, by decide, by decide⟩

/-- C10: the slug expression maps the four default category names to
`vtements-femmes`, `vtements-enfants`, `chaussures`, `accessoires-de-mode`;
these are non-empty, pairwise distinct and made of characters of `[a-z0-9_-]`,
and the type of each default category belongs to the schema's enum. -/
theorem C10_default_category_slugs :
    defaultCategories.map (fun c => (c.name, slug c.name)) =
      [("Vêtements Femmes", "vtements-femmes"),
       ("Vêtements Enfants", "vtements-enfants"),
       ("Chaussures", "chaussures"),
       ("Accessoires de Mode", "accessoires-de-mode")] ∧
    (∀ c ∈ defaultCategories, slug c.name ≠ "") ∧
    (defaultCategories.map (fun c => slug c.name)).Nodup ∧
    (∀ c ∈ defaultCategories, (slug c.name).toList.all isSlugChar = true) ∧
    (∀ c ∈ defaultCategories, c.type ∈ categoryTypeEnum) := by
  refine ⟨by decide, by decide, by decide, by decide, by decide⟩

end NikiBoutique
